import Mathlib

/-!
Verification of the reading-enhancement app's gesture/scroll core against its
specification.  Numbers that the TypeScript source handles as JS floats are
modelled as rationals (`ℚ`); the explicit NaN/null/undefined checks of the
source are modelled by a dedicated input type where the source performs them.
Each definition is a direct translation of the named source function.
-/

namespace ReadingEnhancement

/-- Translation of reanimated's clamp helper used throughout the source:
Math.min(Math.max(value, lowerBound), upperBound). -/
def rclamp (value lowerBound upperBound : ℚ) : ℚ :=
  min (max value lowerBound) upperBound

/-- Translation of the per-frame physics body of useFrameCallback in
src/components/TextTicker.tsx (lines 47-57): an early return when the speed
shared value is 0, otherwise clamp(scrollX - speed, center - contentWidth,
center) guarded by minTranslate < maxTranslate. -/
def tick (scrollX speed containerWidth contentWidth : ℚ) : ℚ :=
  if speed = 0 then scrollX
  else
    let center := containerWidth / 2
    let minTranslate := center - contentWidth
    let maxTranslate := center
    if minTranslate < maxTranslate then
      rclamp (scrollX - speed) minTranslate maxTranslate
    else scrollX

/-- Translation of panGesture.onUpdate in src/components/TextTicker.tsx
(lines 59-73): a no-op when contentWidth <= containerWidth, otherwise the
offset becomes clamp(savedTranslateX + translationX, center - contentWidth,
center).  The first argument is the offset currently stored in scrollX. -/
def panUpdate (scrollX savedTranslateX translationX containerWidth contentWidth : ℚ) : ℚ :=
  if contentWidth ≤ containerWidth then scrollX
  else
    let center := containerWidth / 2
    let minTranslate := center - contentWidth
    let maxTranslate := center
    rclamp (savedTranslateX + translationX) minTranslate maxTranslate

/-- State of the Reader component's pinch handling in
src/components/Reader.tsx: the lastScale ref and the selectedWordIndex
state (a word index or null). -/
structure PinchState where
  lastScale : ℚ
  selectedWordIndex : Option ℕ
  deriving DecidableEq

/-- Effect emitted by one pinch update: either a proposed font-size-delta
adjustment to the selected word (onAdjustSelectedWordSpacing) or a proposed
global base-font-size delta (onAdjustFontSize). -/
inductive PinchEffect where
  | adjustSelectedWord (delta : ℚ)
  | adjustFontSize (delta : ℚ)
  deriving DecidableEq

/-- Translation of handlePinchUpdate in src/components/Reader.tsx
(lines 69-83): delta = scale - lastScale; lastScale = scale; then
delta * 20 to the selected-word callback when a word is selected,
delta * 10 to the global font-size callback otherwise. -/
def handlePinchUpdate (scale : ℚ) (st : PinchState) : PinchState × PinchEffect :=
  let delta := scale - st.lastScale
  let st2 := { st with lastScale := scale }
  match st.selectedWordIndex with
  | some _ => (st2, .adjustSelectedWord (delta * 20))
  | none => (st2, .adjustFontSize (delta * 10))

/-- State read and written by a tap on a word in src/components/Reader.tsx:
the selection pointer together with the per-word override map the claim is
about (the map lives in App.tsx and reaches the Reader as a prop). -/
structure TapState where
  selectedWordIndex : Option ℕ
  overrides : ℕ → Option ℚ

/-- Translation of the word Pressable onPress handler in
src/components/Reader.tsx (lines 96-99): setSelectedWordIndex(index) and
the onSelectWordIndex callback.  The handler keeps no tap timestamp and
never touches the override map, so the tap time is an unused argument:
DOUBLE_TAP_THRESHOLD_MS from src/constants/app.ts is referenced by no code. -/
def wordPress (index : ℕ) (_tapTimeMs : ℚ) (st : TapState) : TapState :=
  { st with selectedWordIndex := some index }

/-- State of the velocity Controller slider (src/components/Controller.tsx
and its layout-aware variant): the measured slider width shared value, the
thumb position and the speed shared value. -/
structure ControllerState where
  sliderWidth : ℚ
  thumbPosition : ℚ
  speed : ℚ
  deriving DecidableEq

/-- Translation of panGesture.onEnd of the Controller (Controller.tsx lines
33-39 and the layout-aware variant's lines 71-76): when |speed| < 0.5, snap
the speed to 0 and the thumb to the track center sliderWidth / 2. -/
def onDragEnd (st : ControllerState) : ControllerState :=
  if |st.speed| < 1/2 then
    { st with speed := 0, thumbPosition := st.sliderWidth / 2 }
  else st

/-- Translation of handleSliderLayout of the layout-aware Controller
variant (lines 41-48): a width within 1px of the stored width is ignored;
otherwise the stored width becomes w, the thumb is placed at w / 2 and the
speed is reset to 0. -/
def handleSliderLayout (w : ℚ) (st : ControllerState) : ControllerState :=
  if |w - st.sliderWidth| < 1 then st
  else { sliderWidth := w, thumbPosition := w / 2, speed := 0 }

/-- Possible JS inputs to the scale clamp of src/utils/gestureHelpers.ts:
an actual number, NaN, null (the source tests scale === null) or undefined
(caught by the source's isNaN check). -/
inductive JSScale where
  | num (q : ℚ)
  | nan
  | jsNull
  | jsUndefined
  deriving DecidableEq

/-- Translation of SCALE_MIN in src/utils/gestureHelpers.ts. -/
def SCALE_MIN : ℚ := 1/10

/-- Translation of SCALE_MAX in src/utils/gestureHelpers.ts. -/
def SCALE_MAX : ℚ := 5

/-- Translation of clampScale in src/utils/gestureHelpers.ts (lines 16-24):
NaN, undefined and null all return the neutral 1; a number returns
Math.max(SCALE_MIN, Math.min(SCALE_MAX, scale)). -/
def clampScale (scale : JSScale) : ℚ :=
  match scale with
  | .num q => max SCALE_MIN (min SCALE_MAX q)
  | .nan => 1
  | .jsNull => 1
  | .jsUndefined => 1

/-- Translation of getSafeScaleDelta in src/utils/gestureHelpers.ts
(lines 44-48): newScale = currentScale + delta; return
clampScale(newScale) - currentScale. -/
def getSafeScaleDelta (currentScale delta : ℚ) : ℚ :=
  clampScale (.num (currentScale + delta)) - currentScale

/-- Per-word font-size override map of the external store: a JS object from
word index to a pixel value, a missing key read as 0 (the source's
prev[index] || 0 also reads a stored 0 as 0, which coincides). -/
def Overrides : Type := ℕ → Option ℚ

/-- Translation of updatePerWordFontSize in App.tsx (lines 87-93) and of
appReducer's ADJUST_WORD_FONT_SIZE case: the entry becomes
Math.max(0, current + delta) with current = the stored value or 0. -/
def adjustWordFontSize (index : ℕ) (delta : ℚ) (m : Overrides) : Overrides :=
  fun j => if j = index then some (max 0 ((m index).getD 0 + delta)) else m j

/-- Translation of resetWordScaleByIndex in App.tsx (lines 104-110) and of
appReducer's RESET_WORD_FONT_SIZE case: the entry for the index is deleted. -/
def resetWordFontSize (index : ℕ) (m : Overrides) : Overrides :=
  fun j => if j = index then none else m j

/-- One store operation on the override map: an adjust by a signed delta or
a reset of one index. -/
inductive OverrideOp where
  | adjust (index : ℕ) (delta : ℚ)
  | reset (index : ℕ)

/-- Application of one store operation. -/
def applyOverrideOp (m : Overrides) (op : OverrideOp) : Overrides :=
  match op with
  | .adjust i d => adjustWordFontSize i d m
  | .reset i => resetWordFontSize i m

/-- Application of a sequence of store operations, oldest first. -/
def applyOverrideOps (m : Overrides) (ops : List OverrideOp) : Overrides :=
  ops.foldl applyOverrideOp m

/-- Non-negativity of every value stored in the override map. -/
def NonNegOverrides (m : Overrides) : Prop :=
  ∀ j v, m j = some v → 0 ≤ v

end ReadingEnhancement

open ReadingEnhancement

/-- C1 counterexample: with containerWidth = 300 ≥ contentWidth = 150 and
velocity 3, a tick from offset 100 moves the offset to 97 (the gate in the
source is minTranslate < maxTranslate, i.e. contentWidth > 0, not
containerWidth ≥ contentWidth), so the claimed no-op fails. -/
theorem C1_counterexample :
    (150 : ℚ) ≤ 300 ∧ tick 100 3 300 150 ≠ 100 := by
  constructor
  · norm_num
  · show tick 100 3 300 150 ≠ 100
    norm_num [tick, rclamp]

/-- C1 amended: one physics tick leaves the scroll offset unchanged, for any
offset and any velocity, whenever minOffset ≥ maxOffset, i.e. whenever
contentWidth ≤ 0; content merely fitting the container (contentWidth
positive but at most containerWidth) does not disable the tick. -/
theorem C1_amended_noop (scrollX speed containerWidth contentWidth : ℚ)
    (h : contentWidth ≤ 0) :
    tick scrollX speed containerWidth contentWidth = scrollX := by
  unfold tick
  rcases eq_or_ne speed 0 with hs | hs
  · simp [hs]
  · have hlt : ¬ containerWidth / 2 - contentWidth < containerWidth / 2 := by
      linarith
    simp [hs, hlt]

/-- C1 witness: the amended no-op evaluated at a concrete degenerate
content width. -/
theorem C1_witness : tick 42 7 300 0 = 42 :=
  C1_amended_noop 42 7 300 0 (by norm_num)

/-- C2 counterexample: with contentWidth = 500 > containerWidth = 300 the
claimed interval is [-350, 150], yet a tick with velocity 0 from offset 1000
returns 1000 (the source returns early when the speed shared value is 0), so
the result does not lie in the interval. -/
theorem C2_counterexample :
    (300 : ℚ) < 500 ∧
      ¬ (tick 1000 0 300 500 ≤ 300 / 2 ∧ 300 / 2 - 500 ≤ tick 1000 0 300 500) := by
  constructor
  · norm_num
  · intro hmem
    have h0 : tick 1000 0 300 500 = 1000 := by norm_num [tick]
    rw [h0] at hmem
    have := hmem.1
    norm_num at this

/-- C2 amended: when contentWidth > containerWidth, every offset that already
lies in [containerWidth/2 - contentWidth, containerWidth/2] is mapped by one
physics tick (any velocity, including 0) back into that interval; the claim
fails only for offsets that start outside the interval when the tick's
velocity-0 early return leaves them untouched. -/
theorem C2_amended_bounds (scrollX speed containerWidth contentWidth : ℚ)
    (_hwide : containerWidth < contentWidth)
    (hlo : containerWidth / 2 - contentWidth ≤ scrollX)
    (hhi : scrollX ≤ containerWidth / 2) :
    containerWidth / 2 - contentWidth ≤ tick scrollX speed containerWidth contentWidth ∧
      tick scrollX speed containerWidth contentWidth ≤ containerWidth / 2 := by
  simp only [tick]
  split_ifs with hs hlt
  · exact ⟨hlo, hhi⟩
  · unfold rclamp
    refine ⟨le_min (le_max_right _ _) (le_of_lt hlt), min_le_right _ _⟩
  · exact ⟨hlo, hhi⟩

/-- C2 witness: the amended bounds invariant evaluated at a concrete
in-range offset with contentWidth 500 > containerWidth 300. -/
theorem C2_witness :
    300 / 2 - 500 ≤ tick 100 3 300 500 ∧ tick 100 3 300 500 ≤ (300 : ℚ) / 2 :=
  C2_amended_bounds 100 3 300 500 (by norm_num) (by norm_num) (by norm_num)

/-- C3: a pan-gesture update is a complete no-op on the offset when
contentWidth ≤ containerWidth, and otherwise writes
clamp(snapshot + translation, containerWidth/2 - contentWidth,
containerWidth/2), where the snapshot is the offset saved at gesture start. -/
theorem C3_pan_update (scrollX savedTranslateX translationX containerWidth contentWidth : ℚ) :
    (contentWidth ≤ containerWidth →
        panUpdate scrollX savedTranslateX translationX containerWidth contentWidth = scrollX) ∧
      (containerWidth < contentWidth →
        panUpdate scrollX savedTranslateX translationX containerWidth contentWidth =
          rclamp (savedTranslateX + translationX)
            (containerWidth / 2 - contentWidth) (containerWidth / 2)) := by
  constructor
  · intro h
    simp [panUpdate, h]
  · intro h
    have hn : ¬ contentWidth ≤ containerWidth := not_le.mpr h
    simp [panUpdate, hn]

/-- C3 witness: the spec's scenario contentWidth = 150, containerWidth = 300
(content narrower than the container): a pan translation of 100 leaves the
offset 42 unchanged. -/
theorem C3_witness : panUpdate 42 42 100 300 150 = 42 :=
  (C3_pan_update 42 42 100 300 150).1 (by norm_num)

/-- C4: a pinch update computes delta = scale - lastScale, stores the new
scale as lastScale, leaves the selection unchanged, and proposes delta * 20
through the selected-word callback when a word is selected and delta * 10
through the global font-size callback when none is. -/
theorem C4_pinch_update (st : PinchState) (scale : ℚ) :
    (handlePinchUpdate scale st).1.lastScale = scale ∧
      (handlePinchUpdate scale st).1.selectedWordIndex = st.selectedWordIndex ∧
      (∀ i, st.selectedWordIndex = some i →
        (handlePinchUpdate scale st).2 = .adjustSelectedWord ((scale - st.lastScale) * 20)) ∧
      (st.selectedWordIndex = none →
        (handlePinchUpdate scale st).2 = .adjustFontSize ((scale - st.lastScale) * 10)) := by
  rcases st with ⟨ls, sel⟩
  cases sel <;> simp [handlePinchUpdate]

/-- C4 witness: a per-step scale delta of 0.05 (scale 1.05 after lastScale 1)
proposes 1.0px with word 3 selected and 0.5px with no selection. -/
theorem C4_witness :
    (handlePinchUpdate (21/20) ⟨1, some 3⟩).2 = .adjustSelectedWord 1 ∧
      (handlePinchUpdate (21/20) ⟨1, none⟩).2 = .adjustFontSize (1/2) := by
  constructor
  · have h := (C4_pinch_update ⟨1, some 3⟩ (21/20)).2.2.1 3 rfl
    rw [h]
    norm_num
  · have h := (C4_pinch_update ⟨1, none⟩ (21/20)).2.2.2 rfl
    rw [h]
    norm_num

/-- C5: evaluation of the word-tap handler of the code at the claim's
failing input.  Starting unselected with word 3's override at 7, two taps on
word 3 at t = 0ms and t = 100ms (100ms < the 300ms threshold) leave the
override at 7 — nothing is reset, the handler only selects — contradicting
the documented double-tap reset. -/
theorem C5_no_double_tap_reset :
    ((wordPress 3 100 (wordPress 3 0
        ⟨none, fun j => if j = 3 then some 7 else none⟩)).overrides 3 = some 7) ∧
      ((wordPress 3 100 (wordPress 3 0
        ⟨none, fun j => if j = 3 then some 7 else none⟩)).selectedWordIndex = some 3) ∧
      (some (7 : ℚ) ≠ some 0) := by
  refine ⟨rfl, rfl, by norm_num⟩

/-- C6: when a Controller drag ends while |speed| < 0.5, onEnd snaps the
speed to exactly 0 and the thumb to exactly the track center
sliderWidth / 2. -/
theorem C6_snap_to_zero (st : ControllerState) (h : |st.speed| < 1/2) :
    (onDragEnd st).speed = 0 ∧ (onDragEnd st).thumbPosition = st.sliderWidth / 2 := by
  unfold onDragEnd
  rw [if_pos h]
  exact ⟨rfl, rfl⟩

/-- C6 witness: the spec's scenario, a drag ending with velocity 0.3 on a
200px track, yields speed 0 and thumb at the center 100. -/
theorem C6_witness :
    (onDragEnd ⟨200, 160, 3/10⟩).speed = 0 ∧
      (onDragEnd ⟨200, 160, 3/10⟩).thumbPosition = 200 / 2 :=
  C6_snap_to_zero ⟨200, 160, 3/10⟩ (by rw [abs_lt]; constructor <;> norm_num)

/-- C7 counterexample: a slider layout at width 200 while speed is 4 (with
maxSpeed 8) places the thumb at 100, not at the claimed
trackCenter + (velocity / maxSpeed) * trackCenter = 100 + (4/8) * 100 = 150,
and zeroes the speed instead of keeping it. -/
theorem C7_counterexample :
    (handleSliderLayout 200 ⟨0, 0, 4⟩).thumbPosition ≠ 200 / 2 + 4 / 8 * (200 / 2) ∧
      (handleSliderLayout 200 ⟨0, 0, 4⟩).speed ≠ 4 := by
  constructor
  · show (handleSliderLayout 200 ⟨0, 0, 4⟩).thumbPosition ≠ 200 / 2 + 4 / 8 * (200 / 2)
    norm_num [handleSliderLayout]
  · show (handleSliderLayout 200 ⟨0, 0, 4⟩).speed ≠ 4
    norm_num [handleSliderLayout]

/-- C7 amended: a track-resize event whose width differs from the stored
width by at least 1px records the new width and resets the thumb to the new
track center w / 2 and the velocity to 0; a resize within 1px of the stored
width changes nothing.  The thumb is not re-derived from the current
velocity. -/
theorem C7_amended_layout (w : ℚ) (st : ControllerState) :
    (|w - st.sliderWidth| < 1 → handleSliderLayout w st = st) ∧
      (1 ≤ |w - st.sliderWidth| →
        handleSliderLayout w st = ⟨w, w / 2, 0⟩) := by
  constructor
  · intro h
    simp [handleSliderLayout, h]
  · intro h
    have hn : ¬ |w - st.sliderWidth| < 1 := not_lt.mpr h
    simp [handleSliderLayout, hn]

/-- C7 witness: the amended behavior at a concrete resize from width 0 to
width 200 with speed 4. -/
theorem C7_witness : handleSliderLayout 200 ⟨0, 0, 4⟩ = ⟨200, 100, 0⟩ := by
  have h := (C7_amended_layout 200 ⟨0, 0, 4⟩).2 (by norm_num)
  rw [h]
  norm_num

/-- C8: the scale clamp maps each invalid input — NaN, null and undefined —
to the neutral value 1, which is neither the lower bound 0.1 nor the upper
bound 5. -/
theorem C8_invalid_inputs_neutral :
    clampScale .nan = 1 ∧ clampScale .jsNull = 1 ∧ clampScale .jsUndefined = 1 ∧
      (1 : ℚ) ≠ SCALE_MIN ∧ (1 : ℚ) ≠ SCALE_MAX := by
  refine ⟨rfl, rfl, rfl, ?_, ?_⟩
  · norm_num [SCALE_MIN]
  · norm_num [SCALE_MAX]

/-- C9: for every numeric current scale and requested delta, applying the
safe delta to the current scale lands exactly on the clamped result:
current + getSafeScaleDelta(current, delta) = clampScale(current + delta). -/
theorem C9_safe_delta_exact (currentScale delta : ℚ) :
    currentScale + getSafeScaleDelta currentScale delta =
      clampScale (.num (currentScale + delta)) := by
  unfold getSafeScaleDelta
  ring

/-- Preservation of override non-negativity by a single store operation. -/
lemma nonneg_applyOverrideOp (m : Overrides) (op : OverrideOp)
    (h : NonNegOverrides m) : NonNegOverrides (applyOverrideOp m op) := by
  rcases op with ⟨i, d⟩ | i
  · intro j v hv
    simp only [applyOverrideOp, adjustWordFontSize] at hv
    by_cases hj : j = i
    · rw [if_pos hj] at hv
      have hv2 : max 0 ((m i).getD 0 + d) = v := Option.some.inj hv
      rw [← hv2]
      exact le_max_left _ _
    · rw [if_neg hj] at hv
      exact h j v hv
  · intro j v hv
    simp only [applyOverrideOp, resetWordFontSize] at hv
    by_cases hj : j = i
    · rw [if_pos hj] at hv
      exact Option.noConfusion hv
    · rw [if_neg hj] at hv
      exact h j v hv

/-- C10: every value stored in the per-word override map stays non-negative
under every store operation — adjusting clamps to max(0, current + delta)
and resetting removes the entry — so no sequence of adjust/reset operations
starting from a non-negative map ever stores a negative override. -/
theorem C10_overrides_nonneg (m : Overrides) (ops : List OverrideOp)
    (h : NonNegOverrides m) :
    NonNegOverrides (applyOverrideOps m ops) ∧
      (∀ i d, adjustWordFontSize i d m i = some (max 0 ((m i).getD 0 + d))) ∧
      (∀ i, resetWordFontSize i m i = none) := by
  refine ⟨?_, ?_, ?_⟩
  · induction ops generalizing m with
    | nil => exact h
    | cons op rest ih => exact ih (applyOverrideOp m op) (nonneg_applyOverrideOp m op h)
  · intro i d
    simp [adjustWordFontSize]
  · intro i
    simp [resetWordFontSize]

/-- C10 witness: starting from the empty map, a concrete mixed sequence of
negative adjustments, a positive adjustment and a reset leaves every stored
override non-negative. -/
theorem C10_witness :
    NonNegOverrides (applyOverrideOps (fun _ => none)
      [.adjust 0 (-5), .adjust 1 3, .reset 1, .adjust 0 (-2)]) :=
  (C10_overrides_nonneg (fun _ => none)
    [.adjust 0 (-5), .adjust 1 3, .reset 1, .adjust 0 (-2)]
    (fun _ _ hv => Option.noConfusion hv)).1
